import Mathlib

/-!
Verification development for the NZDPU MCP server core: a shallow embedding in
Lean 4 of the benchmarking and data-quality engine (comparability rule checker,
peer statistics calculator, percentile rank, CAGR, quality scorer, company
comparison), together with theorems settling the specified properties.

Modelling conventions, used uniformly below:
- a JavaScript number is modelled as a rational (the repository only performs
  field arithmetic on them; square roots and real powers land in the reals);
- a nullable or optional value (null and undefined alike) is an Option;
- JavaScript string truthiness (null, undefined and the empty string are
  falsy) is modelled by the truthyStr predicate;
- the read-only SQLite store is modelled as in-memory lists of rows, SQL
  filtering and ordering as list filtering and a stable sort
  (List.insertionSort, a stable sort, stands in for the unspecified stable
  sort of SQL ORDER BY and of Array.prototype.sort);
- the fifteen numbered scope3_cat_N columns of an emissions row are modelled
  as total functions out of Fin 15 (index i stands for category i+1);
- presentation-only free-text fields of warning objects (educationalContext,
  per-warning suggestion) are omitted; warning type, severity and message are
  kept.
-/

/-- JavaScript string truthiness for an optional string: null, undefined and
the empty string are falsy. -/
def truthyStr : Option String → Bool
  | none => false
  | some s => s ≠ ""

/-- Lower-casing of a string, character by character, modelling
String.prototype.toLowerCase on the ASCII method and boundary names the
repository compares. -/
def strToLower (s : String) : String :=
  String.mk (s.data.map Char.toLower)

/-- Substring containment, modelling String.prototype.includes. -/
def strIncludes (s pat : String) : Bool :=
  decide (pat.data.IsInfix s.data)

-- ==================== src/types/index.ts ====================

/-- Scope2Methodology from src/types/index.ts. -/
inductive Scope2Methodology
  | location_based
  | market_based
deriving DecidableEq, Repr

/-- The type tag of a ComparabilityWarning from src/types/index.ts. -/
inductive WarningType
  | scope2_mismatch
  | methodology_mismatch
  | boundary_mismatch
  | year_mismatch
  | data_quality
deriving DecidableEq, Repr

/-- The severity of a ComparabilityWarning from src/types/index.ts. -/
inductive Severity
  | error
  | warning
  | info
deriving DecidableEq, Repr

/-- ComparabilityWarning from src/types/index.ts (educationalContext and
suggestion, presentation-only free text, omitted). -/
structure ComparabilityWarning where
  type : WarningType
  severity : Severity
  message : String
deriving DecidableEq, Repr

/-- ComparabilityCheck from src/types/index.ts. -/
structure ComparabilityCheck where
  isComparable : Bool
  warnings : List ComparabilityWarning
  explanation : String
  suggestion : Option String
deriving DecidableEq, Repr

/-- EmissionsData from src/types/index.ts (the scope3_categories array is not
consulted by any embedded function and is omitted). -/
structure EmissionsData where
  company_id : ℕ
  year : ℤ
  scope1_emissions : Option ℚ
  scope1_methodology : Option String
  scope2_location_based : Option ℚ
  scope2_market_based : Option ℚ
  scope2_lb_methodology : Option String
  scope2_mb_methodology : Option String
  scope3_total : Option ℚ
  organizational_boundary : Option String
  verification_status : Option String
deriving DecidableEq, Repr

-- ==================== src/knowledge/comparability.ts ====================

/-- checkScope2Comparability from src/knowledge/comparability.ts. -/
def checkScope2Comparability (methodology1 methodology2 : Scope2Methodology) :
    ComparabilityCheck :=
  if methodology1 = methodology2 then
    { isComparable := true
      warnings := []
      explanation := "Both companies use "
        ++ (if methodology1 = Scope2Methodology.location_based then "location-based"
            else "market-based")
        ++ " methodology. These figures are directly comparable."
      suggestion := none }
  else
    { isComparable := false
      warnings := [{ type := WarningType.scope2_mismatch
                     severity := Severity.error
                     message := "Cannot compare Scope 2 emissions: One uses location-based methodology while the other uses market-based." }]
      explanation := "These Scope 2 figures cannot be directly compared due to methodology differences."
      suggestion := some "To compare these companies fairly, request either location-based or market-based figures for both." }

/-- The year-mismatch rule of checkEmissionsComparability: the first warning
push of the source function. -/
def yearRuleWarnings (e1 e2 : EmissionsData) : List ComparabilityWarning :=
  if e1.year ≠ e2.year then
    [{ type := WarningType.year_mismatch
       severity := Severity.warning
       message := "Different reporting years: " ++ toString e1.year ++ " vs " ++ toString e2.year }]
  else []

/-- The organizational-boundary rule of checkEmissionsComparability: the
warning is pushed only when the boundaries differ and both are truthy. -/
def boundaryRuleWarnings (e1 e2 : EmissionsData) : List ComparabilityWarning :=
  if e1.organizational_boundary ≠ e2.organizational_boundary then
    if truthyStr e1.organizational_boundary && truthyStr e2.organizational_boundary then
      [{ type := WarningType.boundary_mismatch
         severity := Severity.warning
         message := "Different organizational boundaries: "
           ++ (e1.organizational_boundary.getD "") ++ " vs "
           ++ (e2.organizational_boundary.getD "") }]
    else []
  else []

/-- The Scope 1 methodology rule of checkEmissionsComparability: an
informational warning when both methodologies are truthy and differ. -/
def scope1RuleWarnings (e1 e2 : EmissionsData) : List ComparabilityWarning :=
  if truthyStr e1.scope1_methodology && truthyStr e2.scope1_methodology then
    if e1.scope1_methodology ≠ e2.scope1_methodology then
      [{ type := WarningType.methodology_mismatch
         severity := Severity.info
         message := "Different Scope 1 methodologies: "
           ++ (e1.scope1_methodology.getD "") ++ " vs "
           ++ (e2.scope1_methodology.getD "") }]
    else []
  else []

/-- The mixedComparison flag of checkEmissionsComparability: one side reports
only the location-based Scope 2 variant available where the other side has
only the market-based one. -/
def mixedComparison (e1 e2 : EmissionsData) : Bool :=
  (e1.scope2_location_based.isSome && !e2.scope2_location_based.isSome
      && e2.scope2_market_based.isSome)
  || (e1.scope2_market_based.isSome && !e2.scope2_market_based.isSome
      && e2.scope2_location_based.isSome)

/-- The Scope 2 rule of checkEmissionsComparability: a blocking warning when
the comparison mixes the two exclusive Scope 2 variants. -/
def scope2RuleWarnings (e1 e2 : EmissionsData) : List ComparabilityWarning :=
  if mixedComparison e1 e2 then
    [{ type := WarningType.scope2_mismatch
       severity := Severity.error
       message := "Scope 2 methodology mismatch detected" }]
  else []

/-- generateComparabilityExplanation from src/knowledge/comparability.ts
(markdown decoration transliterated to plain text markers). -/
def generateComparabilityExplanation (warnings : List ComparabilityWarning)
    (isComparable : Bool) : String :=
  if warnings = [] then
    "These emissions figures are directly comparable with no significant methodology differences."
  else
    let errors := warnings.filter (fun w => w.severity = Severity.error)
    let warningsOnly := warnings.filter (fun w => w.severity = Severity.warning)
    let infos := warnings.filter (fun w => w.severity = Severity.info)
    let explanation :=
      if !isComparable then
        "COMPARISON NOT VALID\n\nThe following critical issues prevent direct comparison:\n"
          ++ String.join (errors.map (fun e => "- " ++ e.message ++ "\n")) ++ "\n"
      else if warningsOnly.length > 0 then
        "COMPARISON POSSIBLE WITH CAVEATS\n\nConsider the following when interpreting results:\n"
          ++ String.join (warningsOnly.map (fun w => "- " ++ w.message ++ "\n")) ++ "\n"
      else ""
    if infos.length > 0 && isComparable then
      explanation ++ "Notes:\n" ++ String.join (infos.map (fun i => "- " ++ i.message ++ "\n"))
    else explanation

/-- checkEmissionsComparability from src/knowledge/comparability.ts: the four
rules run in sequence, each appending its warnings; only the Scope 2
mixed-variant rule clears isComparable. -/
def checkEmissionsComparability (e1 e2 : EmissionsData) : ComparabilityCheck :=
  let warnings := yearRuleWarnings e1 e2 ++ boundaryRuleWarnings e1 e2
    ++ scope1RuleWarnings e1 e2 ++ scope2RuleWarnings e1 e2
  let isComparable := !mixedComparison e1 e2
  { isComparable := isComparable
    warnings := warnings
    explanation := generateComparabilityExplanation warnings isComparable
    suggestion := if isComparable then none
      else some "Address the errors above before comparing these emissions figures." }

/-- The scope selector accepted by validateComparisonRequest. -/
inductive CompareScope
  | scope1
  | scope2_lb
  | scope2_mb
  | scope2
  | scope3
  | total
deriving DecidableEq, Repr

/-- validateComparisonRequest from src/knowledge/comparability.ts. The Map of
emissions records is modelled as an association list with distinct keys. Note
the early return: when data is missing for some requested company, the
function returns with only the missing-data warning and the Scope 2 rules are
never consulted. -/
def validateComparisonRequest (companyIds : List ℕ) (scope : CompareScope)
    (emissionsData : List (ℕ × EmissionsData)) : ComparabilityCheck :=
  let missingData := companyIds.filter (fun id => !(emissionsData.any (fun p => p.1 = id)))
  if missingData ≠ [] then
    { isComparable := false
      warnings := [{ type := WarningType.data_quality
                     severity := Severity.error
                     message := "Missing emissions data for companies: "
                       ++ String.intercalate ", " (missingData.map toString) }]
      explanation := "Cannot compare: missing data for some companies."
      suggestion := none }
  else
    let warnings :=
      if scope = CompareScope.scope2 then
        [{ type := WarningType.scope2_mismatch
           severity := Severity.warning
           message := "Generic \"scope2\" comparison requested. Please specify \"scope2_lb\" (location-based) or \"scope2_mb\" (market-based) for accurate comparison." }]
      else ([] : List ComparabilityWarning)
    let mismatch :=
      if scope = CompareScope.scope2_lb ∨ scope = CompareScope.scope2_mb then
        let emissions := emissionsData.map (fun p => p.2)
        let fieldOf := fun (e : EmissionsData) =>
          if scope = CompareScope.scope2_lb then e.scope2_location_based
          else e.scope2_market_based
        let otherOf := fun (e : EmissionsData) =>
          if scope = CompareScope.scope2_lb then e.scope2_market_based
          else e.scope2_location_based
        let missingMethodology := emissions.filter (fun e => fieldOf e = none)
        if missingMethodology ≠ [] then
          let hasOther := missingMethodology.filter (fun e => otherOf e ≠ none)
          hasOther ≠ []
        else false
      else false
    if mismatch then
      { isComparable := false
        warnings := warnings ++
          [{ type := WarningType.scope2_mismatch
             severity := Severity.error
             message := "Some companies only report "
               ++ (if scope = CompareScope.scope2_lb then "market-based" else "location-based")
               ++ " Scope 2, not "
               ++ (if scope = CompareScope.scope2_lb then "location-based" else "market-based")
               ++ "." }]
        explanation := "Scope 2 methodology mismatch prevents comparison."
        suggestion := none }
    else
      { isComparable := (warnings.filter (fun w => w.severity = Severity.error)).length = 0
        warnings := warnings
        explanation := if warnings = [] then "Comparison is valid."
          else "Comparison possible with noted caveats."
        suggestion := none }

-- ==================== src/tools/benchmark.ts ====================

/-- PeerGroupStats from src/types/index.ts. The standard deviation is the one
real-valued field (a square root); every other field stays rational. -/
structure PeerGroupStats where
  count : ℕ
  mean : ℚ
  median : ℚ
  stdDev : ℝ
  min : ℚ
  max : ℚ
  percentile25 : ℚ
  percentile75 : ℚ

/-- The all-zero sentinel record returned for an empty sample. -/
def zeroPeerGroupStats : PeerGroupStats :=
  { count := 0, mean := 0, median := 0, stdDev := 0, min := 0, max := 0,
    percentile25 := 0, percentile75 := 0 }

/-- calculatePeerStats from src/tools/benchmark.ts: zero sentinel on the empty
sample; otherwise sort ascending, arithmetic mean, midpoint median for even
counts, population standard deviation, and lower-bound percentiles at sorted
indices floor(n/4) and floor(3n/4). -/
noncomputable def calculatePeerStats (values : List ℚ) : PeerGroupStats :=
  if values = [] then zeroPeerGroupStats
  else
    let sorted := values.insertionSort (· ≤ ·)
    let n := sorted.length
    let mean := values.sum / (n : ℚ)
    let median :=
      if n % 2 = 0 then (sorted.getD (n / 2 - 1) 0 + sorted.getD (n / 2) 0) / 2
      else sorted.getD (n / 2) 0
    let variance := (values.map (fun v => (v - mean) ^ 2)).sum / (n : ℚ)
    { count := n
      mean := mean
      median := median
      stdDev := Real.sqrt (variance : ℝ)
      min := sorted.getD 0 0
      max := sorted.getD (n - 1) 0
      percentile25 := sorted.getD (n / 4) 0
      percentile75 := sorted.getD (3 * n / 4) 0 }

/-- calculatePercentileRank from src/tools/benchmark.ts: the mid-rank formula
(countBelow + 0.5 * countEqual) / n * 100 over the sorted sample, 0 for the
empty sample. -/
def calculatePercentileRank (value : ℚ) (values : List ℚ) : ℚ :=
  if values = [] then 0
  else
    let sorted := values.insertionSort (· ≤ ·)
    let belowCount := (sorted.filter (fun v => v < value)).length
    let equalCount := (sorted.filter (fun v => v = value)).length
    ((belowCount : ℚ) + (1 / 2 : ℚ) * (equalCount : ℚ)) / (sorted.length : ℚ) * 100

-- ==================== src/db/queries.ts: store model ====================

/-- CompanyRow from src/db/queries.ts. -/
structure CompanyRow where
  nz_id : ℕ
  company_name : String
  jurisdiction : Option String
  sics_sector : Option String
  sics_sub_sector : Option String
  sics_industry : Option String
  lei : Option String
  latest_reported_year : Option ℤ

/-- EmissionsRow from src/db/queries.ts; the fifteen numbered scope3_cat_N
value, method and relevancy columns are modelled as functions out of Fin 15
(index i is category i+1). -/
structure EmissionsRow where
  id : ℕ
  nz_id : ℕ
  year : ℤ
  scope1 : Option ℚ
  scope1_methodology : Option String
  scope2_lb : Option ℚ
  scope2_mb : Option ℚ
  scope2_lb_methodology : Option String
  scope2_mb_methodology : Option String
  scope3_total : Option ℚ
  scope3_cat : Fin 15 → Option ℚ
  scope3_cat_method : Fin 15 → Option String
  scope3_cat_relevancy : Fin 15 → Option String
  organizational_boundary : Option String
  verification_status : Option String

/-- The read-only tabular store: the companies and emissions tables of the
SQLite database, as lists of rows. -/
structure Database where
  companies : List CompanyRow
  emissions : List EmissionsRow

/-- getCompanyById from src/db/queries.ts: first companies row with the
requested nz_id. -/
def getCompanyById (db : Database) (nzId : ℕ) : Option CompanyRow :=
  db.companies.find? (fun c => c.nz_id = nzId)

/-- The scope argument of the db benchmarking queries. -/
inductive BenchScope
  | scope1
  | scope2_lb
  | scope2_mb
  | scope3
deriving DecidableEq, Repr

/-- Column selection in the db queries: scope3 reads the scope3_total column,
the other scopes their own column. -/
def scopeColumn (scope : BenchScope) (e : EmissionsRow) : Option ℚ :=
  match scope with
  | BenchScope.scope1 => e.scope1
  | BenchScope.scope2_lb => e.scope2_lb
  | BenchScope.scope2_mb => e.scope2_mb
  | BenchScope.scope3 => e.scope3_total

/-- The filters accepted by getPeerStatistics in src/db/queries.ts. -/
structure PeerFilters where
  jurisdiction : Option String
  sics_sector : Option String
  year : Option ℤ
deriving Repr

/-- Case-insensitive SQL equality LOWER(col) = LOWER(param) against a nullable
column: a NULL column matches nothing. -/
def lowerEqCol (col : Option String) (param : String) : Bool :=
  match col with
  | none => false
  | some s => strToLower s = strToLower param

/-- The value query of getPeerStatistics in src/db/queries.ts: emissions rows
joined to their companies row on nz_id, kept when the selected column is
non-NULL and positive and the jurisdiction / sector / year filters match,
projected to the column value and ordered ascending (ORDER BY the column). -/
def peerQueryValues (db : Database) (scope : BenchScope) (filters : PeerFilters) :
    List ℚ :=
  (db.emissions.filterMap (fun e =>
    match getCompanyById db e.nz_id with
    | none => none
    | some c =>
      match scopeColumn scope e with
      | none => none
      | some v =>
        if 0 < v
            && (match filters.jurisdiction with
                | none => true
                | some j => lowerEqCol c.jurisdiction j)
            && (match filters.sics_sector with
                | none => true
                | some s => lowerEqCol c.sics_sector s)
            && (match filters.year with
                | none => true
                | some y => e.year = y)
        then some v else none)).insertionSort (· ≤ ·)

/-- The statistical tail of getPeerStatistics in src/db/queries.ts, applied to
the ordered value list the SQL query returns: null for the empty sample,
otherwise count, mean, midpoint median, lower-bound percentiles at indices
floor(n/4) and floor(3n/4), and population standard deviation. -/
noncomputable def peerStatsOfValues (nums : List ℚ) : Option PeerGroupStats :=
  if nums = [] then none
  else
    let count := nums.length
    let mean := nums.sum / (count : ℚ)
    let median :=
      if count % 2 = 0 then (nums.getD (count / 2 - 1) 0 + nums.getD (count / 2) 0) / 2
      else nums.getD (count / 2) 0
    let variance := (nums.map (fun v => (v - mean) ^ 2)).sum / (count : ℚ)
    some
      { count := count
        mean := mean
        median := median
        stdDev := Real.sqrt (variance : ℝ)
        min := nums.getD 0 0
        max := nums.getD (count - 1) 0
        percentile25 := nums.getD (count / 4) 0
        percentile75 := nums.getD (3 * count / 4) 0 }

/-- getPeerStatistics from src/db/queries.ts: the SQL value query followed by
the in-memory statistics, null when the filters match no values. -/
noncomputable def getPeerStatistics (db : Database) (scope : BenchScope)
    (filters : PeerFilters) : Option PeerGroupStats :=
  peerStatsOfValues (peerQueryValues db scope filters)

/-- calcPercentile, the local percentile estimator inside benchmarkCompany in
src/db/queries.ts: null when the company value is falsy (absent or zero) or
the stats are null; 0 at or below the cohort minimum, 100 at or above the
cohort maximum, otherwise the rounded linear interpolation between them. -/
def calcPercentile (value : Option ℚ) (stats : Option PeerGroupStats) : Option ℤ :=
  match value, stats with
  | some v, some s =>
    if v = 0 then none
    else if v ≤ s.min then some 0
    else if s.max ≤ v then some 100
    else some (round ((v - s.min) / (s.max - s.min) * 100))
  | _, _ => none

/-- The company emissions lookup at the head of benchmarkCompany: the rows of
the company restricted to the requested year, or all rows ordered by year
descending when no year is given; the first row is used. -/
def companyEmissionsRow (db : Database) (nzId : ℕ) (year : Option ℤ) :
    Option EmissionsRow :=
  match year with
  | some y => (db.emissions.filter (fun e => e.nz_id = nzId && e.year = y)).head?
  | none =>
    ((db.emissions.filter (fun e => e.nz_id = nzId)).insertionSort
      (fun a b => b.year ≤ a.year)).head?

/-- The result record of benchmarkCompany in src/db/queries.ts. -/
structure BenchmarkResult where
  company : CompanyRow
  companyValue : Option ℚ
  companyYear : ℤ
  jurisdictionStats : Option PeerGroupStats
  sectorStats : Option PeerGroupStats
  combinedStats : Option PeerGroupStats
  percentileInJurisdiction : Option ℤ
  percentileInSector : Option ℤ
  percentileInCombined : Option ℤ

/-- benchmarkCompany from src/db/queries.ts: null when the company id is
unknown; otherwise the company value and year, up to three peer cohorts
(jurisdiction, sector, and their intersection) and the interpolated
percentile against each. -/
noncomputable def benchmarkCompany (db : Database) (nzId : ℕ) (scope : BenchScope)
    (year : Option ℤ) : Option BenchmarkResult :=
  match getCompanyById db nzId with
  | none => none
  | some company =>
    let emissionsResult := companyEmissionsRow db nzId year
    let companyValue := emissionsResult.bind (fun e => scopeColumn scope e)
    let companyYear :=
      match emissionsResult with
      | some e => e.year
      | none => company.latest_reported_year.getD 2022
    let jurisdictionStats :=
      match company.jurisdiction with
      | some j => getPeerStatistics db scope
          { jurisdiction := some j, sics_sector := none, year := some companyYear }
      | none => none
    let sectorStats :=
      match company.sics_sector with
      | some s => getPeerStatistics db scope
          { jurisdiction := none, sics_sector := some s, year := some companyYear }
      | none => none
    let combinedStats :=
      match company.jurisdiction, company.sics_sector with
      | some j, some s => getPeerStatistics db scope
          { jurisdiction := some j, sics_sector := some s, year := some companyYear }
      | _, _ => none
    some
      { company := company
        companyValue := companyValue
        companyYear := companyYear
        jurisdictionStats := jurisdictionStats
        sectorStats := sectorStats
        combinedStats := combinedStats
        percentileInJurisdiction := calcPercentile companyValue jurisdictionStats
        percentileInSector := calcPercentile companyValue sectorStats
        percentileInCombined := calcPercentile companyValue combinedStats }

/-- One entry of the compareCompanies result in src/db/queries.ts. -/
structure CompareEntry where
  company : CompanyRow
  emissions : Option EmissionsRow

/-- compareCompanies from src/db/queries.ts: for each requested id, look up
the company and skip it silently when absent; otherwise attach the emissions
row of the requested year, or the latest row. -/
def compareCompanies (db : Database) (nzIds : List ℕ) (year : Option ℤ) :
    List CompareEntry :=
  match nzIds with
  | [] => []
  | nzId :: rest =>
    match getCompanyById db nzId with
    | none => compareCompanies db rest year
    | some company =>
      { company := company, emissions := companyEmissionsRow db nzId year }
        :: compareCompanies db rest year

-- ==================== src/db/year-comparison.ts ====================

/-- calculateCAGR from the year-comparison module of src/db: null when either
value is falsy (absent or zero), the begin value is non-positive, or the years
apart are at most one; otherwise ((end / begin) ^ (1 / yearsApart) - 1) * 100
as a real number. -/
noncomputable def calculateCAGR (beginValue endValue : Option ℚ) (yearsApart : ℤ) :
    Option ℝ :=
  match beginValue, endValue with
  | some b, some e =>
    if b = 0 ∨ e = 0 ∨ b ≤ 0 ∨ yearsApart ≤ 1 then none
    else some ((Real.rpow ((e : ℝ) / (b : ℝ)) (1 / (yearsApart : ℝ)) - 1) * 100)
  | _, _ => none

-- ==================== src/scripts/build-database.ts ====================

/-- One period of a PeerTrendDataPoint from src/scripts/build-database.ts;
only the fields analyzeTrend consults (year and aggregate mean) are
modelled. -/
structure PeerTrendDataPoint where
  year : ℤ
  mean : ℚ
deriving DecidableEq, Repr

/-- The trend direction classification of analyzeTrend. -/
inductive TrendDirection
  | increasing
  | decreasing
  | stable
  | insufficient_data
deriving DecidableEq, Repr

/-- The result record of analyzeTrend in src/scripts/build-database.ts. -/
structure TrendAnalysis where
  overallTrendDirection : TrendDirection
  meanChange : Option ℚ
  meanChangePercent : Option ℚ
  averageAnnualChange : Option ℚ
  averageAnnualGrowthRate : Option ℝ

/-- analyzeTrend from src/scripts/build-database.ts: the insufficient-data
sentinel below two data points; otherwise mean change between first and last
point, its percentage of the first mean, the arithmetic mean of consecutive
differences, the compound growth rate gated on yearsApart > 0 (not > 1) and a
positive first mean, and the 5-percent direction band. The rational
convention x / 0 = 0 stands in for the JavaScript infinity of
meanChange / 0; it sits outside every property proved here, all of which are
guarded by a positive first mean. -/
noncomputable def analyzeTrend (dataPoints : List PeerTrendDataPoint) : TrendAnalysis :=
  if dataPoints.length < 2 then
    { overallTrendDirection := TrendDirection.insufficient_data
      meanChange := none
      meanChangePercent := none
      averageAnnualChange := none
      averageAnnualGrowthRate := none }
  else
    let firstPoint := dataPoints.getD 0 { year := 0, mean := 0 }
    let lastPoint := dataPoints.getD (dataPoints.length - 1) { year := 0, mean := 0 }
    let yearsApart := lastPoint.year - firstPoint.year
    let meanChange := lastPoint.mean - firstPoint.mean
    let meanChangePercent := meanChange / firstPoint.mean * 100
    let totalYoYChange :=
      ((dataPoints.zip dataPoints.tail).map (fun p => p.2.mean - p.1.mean)).sum
    let yoyCount := dataPoints.length - 1
    let averageAnnualChange :=
      if 0 < yoyCount then some (totalYoYChange / (yoyCount : ℚ)) else none
    let averageAnnualGrowthRate :=
      if 0 < yearsApart ∧ 0 < firstPoint.mean then
        some ((Real.rpow ((lastPoint.mean : ℝ) / (firstPoint.mean : ℝ))
          (1 / (yearsApart : ℝ)) - 1) * 100)
      else none
    let overallTrendDirection :=
      if 5 < |meanChangePercent| then
        if 0 < meanChangePercent then TrendDirection.increasing
        else TrendDirection.decreasing
      else TrendDirection.stable
    { overallTrendDirection := overallTrendDirection
      meanChange := some meanChange
      meanChangePercent := some meanChangePercent
      averageAnnualChange := averageAnnualChange
      averageAnnualGrowthRate := averageAnnualGrowthRate }

-- ==================== src/db/queries.ts: data quality ====================

/-- QualityScore from src/types/index.ts. -/
inductive QualityScore
  | HIGH
  | MEDIUM
  | LOW
deriving DecidableEq, Repr

/-- MethodQualityTier from src/types/index.ts. -/
inductive MethodQualityTier
  | PRIMARY
  | MODELED
  | UNKNOWN
deriving DecidableEq, Repr

/-- The SCOPE3_METHOD_QUALITY classification table from src/types/index.ts. -/
def SCOPE3_METHOD_QUALITY : List (String × MethodQualityTier) :=
  [("Supplier-specific method", MethodQualityTier.PRIMARY),
   ("Hybrid method", MethodQualityTier.PRIMARY),
   ("Asset-specific method", MethodQualityTier.PRIMARY),
   ("Fuel-based method", MethodQualityTier.PRIMARY),
   ("Average-data method", MethodQualityTier.MODELED),
   ("Spend-based method", MethodQualityTier.MODELED),
   ("Distance-based method", MethodQualityTier.MODELED),
   ("Waste-type-specific method", MethodQualityTier.MODELED),
   ("Site-specific method", MethodQualityTier.PRIMARY),
   ("Average product method", MethodQualityTier.MODELED),
   ("Lessor-specific method", MethodQualityTier.PRIMARY),
   ("Lessee-specific method", MethodQualityTier.PRIMARY),
   ("Franchise-specific method", MethodQualityTier.PRIMARY),
   ("Investment-specific method", MethodQualityTier.PRIMARY)]

/-- The STANDARD_BOUNDARIES constant from src/db/queries.ts. -/
def STANDARD_BOUNDARIES : List String :=
  ["Operational control", "Financial control", "Equity share"]

/-- The result of assessBoundaryQuality in src/db/queries.ts. -/
structure BoundaryAssessment where
  score : QualityScore
  isStandard : Bool
deriving DecidableEq, Repr

/-- assessBoundaryQuality from src/db/queries.ts: LOW for a falsy boundary;
HIGH for an exact standard name or one containing operational or financial;
MEDIUM for one containing equity; LOW otherwise. -/
def assessBoundaryQuality (boundary : Option String) : BoundaryAssessment :=
  if !truthyStr boundary then { score := QualityScore.LOW, isStandard := false }
  else
    let b := boundary.getD ""
    if b ∈ STANDARD_BOUNDARIES then { score := QualityScore.HIGH, isStandard := true }
    else
      let boundaryLower := strToLower b
      if strIncludes boundaryLower "operational" || strIncludes boundaryLower "financial" then
        { score := QualityScore.HIGH, isStandard := true }
      else if strIncludes boundaryLower "equity" then
        { score := QualityScore.MEDIUM, isStandard := true }
      else { score := QualityScore.LOW, isStandard := false }

/-- assessVerificationQuality from src/db/queries.ts: LOW when absent, HIGH
for reasonable assurance, MEDIUM for limited or any other assurance. -/
def assessVerificationQuality (verification : Option String) : QualityScore :=
  if !truthyStr verification then QualityScore.LOW
  else
    let verificationLower := strToLower (verification.getD "")
    if strIncludes verificationLower "reasonable" then QualityScore.HIGH
    else if strIncludes verificationLower "limited" then QualityScore.MEDIUM
    else QualityScore.MEDIUM

/-- assessS12MethodologyQuality from src/db/queries.ts: LOW when absent, HIGH
for the recognized international standards, MEDIUM for regional standards or
any other named methodology. -/
def assessS12MethodologyQuality (methodology : Option String) : QualityScore :=
  if !truthyStr methodology then QualityScore.LOW
  else
    let methodLower := strToLower (methodology.getD "")
    if strIncludes methodLower "ghg protocol" || strIncludes methodLower "iso 14064"
        || strIncludes methodLower "api compendium" || strIncludes methodLower "ipieca" then
      QualityScore.HIGH
    else if strIncludes methodLower "eu ets" || strIncludes methodLower "epa"
        || strIncludes methodLower "defra" || strIncludes methodLower "ipcc" then
      QualityScore.MEDIUM
    else QualityScore.MEDIUM

/-- getScope3MethodTier from src/db/queries.ts: UNKNOWN for a falsy method
name or the em-dash placeholder, otherwise the classification table lookup
with UNKNOWN as default. -/
def getScope3MethodTier (method : Option String) : MethodQualityTier :=
  if !truthyStr method ∨ method = some "—" then MethodQualityTier.UNKNOWN
  else ((SCOPE3_METHOD_QUALITY.find? (fun p => p.1 = method.getD "")).map
    (fun p => p.2)).getD MethodQualityTier.UNKNOWN

/-- calculateOverallScore from src/db/queries.ts: map HIGH, MEDIUM, LOW to 3,
2, 1, average the three component scores, HIGH at average 2.5 and above,
MEDIUM at 1.5 and above, LOW below. -/
def calculateOverallScore (boundaryScore verificationScore methodologyScore :
    QualityScore) : QualityScore :=
  let scores : QualityScore → ℚ := fun s =>
    match s with
    | QualityScore.HIGH => 3
    | QualityScore.MEDIUM => 2
    | QualityScore.LOW => 1
  let total := scores boundaryScore + scores verificationScore + scores methodologyScore
  let avg := total / 3
  if avg ≥ 5 / 2 then QualityScore.HIGH
  else if avg ≥ 3 / 2 then QualityScore.MEDIUM
  else QualityScore.LOW

/-- Integer-part rendering of a non-negative rational rounded half-up,
modelling Number.prototype.toFixed(0) on the magnitudes the source formats. -/
def toFixed0 (q : ℚ) : String :=
  toString (round q)

/-- One-decimal rendering of a non-negative rational rounded half-up,
modelling Number.prototype.toFixed(1) on the magnitudes the source formats. -/
def toFixed1 (q : ℚ) : String :=
  let n : ℤ := round (q * 10)
  toString (n / 10) ++ "." ++ toString (n % 10)

/-- formatNumber from src/db/queries.ts: compact billions / millions /
thousands rendering. -/
def formatNumber (num : ℚ) : String :=
  if num ≥ 1000000000 then toFixed1 (num / 1000000000) ++ "B"
  else if num ≥ 1000000 then toFixed1 (num / 1000000) ++ "M"
  else if num ≥ 1000 then toFixed1 (num / 1000) ++ "K"
  else toFixed0 num

/-- The per-category entry of the scope3MethodQuality map in an
EnhancedDataQualityAssessment. -/
structure CategoryMethodQuality where
  method : Option String
  methodTier : MethodQualityTier
  relevancy : Option String
  value : Option ℚ

/-- EnhancedDataQualityAssessment from src/types/index.ts. -/
structure EnhancedDataQualityAssessment where
  nz_id : ℕ
  year : ℤ
  boundaryScore : QualityScore
  boundaryType : Option String
  boundaryIsStandard : Bool
  verificationScore : QualityScore
  verificationType : Option String
  scope1MethodologyScore : QualityScore
  scope2LBMethodologyScore : QualityScore
  scope2MBMethodologyScore : QualityScore
  scope3MethodQuality : Fin 15 → CategoryMethodQuality
  overallScore : QualityScore
  warnings : List String
  methodologyConsistent : Bool
  methodologyChanges : List String

/-- The warning a material Scope 3 category contributes inside
assessDataQuality: a positive value with an UNKNOWN tier, or a MODELED tier
above one million tonnes. Index cat is category cat+1. -/
def categoryWarnings (emissions : EmissionsRow) (cat : Fin 15) : List String :=
  let method := emissions.scope3_cat_method cat
  let value := emissions.scope3_cat cat
  let methodTier := getScope3MethodTier method
  match value with
  | none => []
  | some v =>
    if v ≠ 0 ∧ 0 < v then
      if methodTier = MethodQualityTier.UNKNOWN then
        ["Scope 3 Category " ++ toString (cat.val + 1)
          ++ ": No methodology disclosed for " ++ formatNumber v ++ " tCO2e"]
      else if methodTier = MethodQualityTier.MODELED ∧ 1000000 < v then
        ["Scope 3 Category " ++ toString (cat.val + 1)
          ++ ": Uses modeled methodology (" ++ (method.getD "")
          ++ ") for significant emissions (" ++ formatNumber v ++ " tCO2e)"]
      else []
    else []

/-- assessDataQuality from src/db/queries.ts: boundary, verification and
Scope 1/2 methodology scores, the per-category Scope 3 tier map with
materiality warnings, and the overall score from the boundary, verification
and Scope 1 methodology components. The sector argument is accepted and, as
in the source, unused. -/
def assessDataQuality (emissions : EmissionsRow) (_sector : Option String := none) :
    EnhancedDataQualityAssessment :=
  let boundaryAssessment := assessBoundaryQuality emissions.organizational_boundary
  let boundaryWarnings :=
    if !boundaryAssessment.isStandard && truthyStr emissions.organizational_boundary then
      ["Non-standard organizational boundary \""
        ++ (emissions.organizational_boundary.getD "")
        ++ "\" - may limit comparability with peers"]
    else []
  let verificationScore := assessVerificationQuality emissions.verification_status
  let verificationWarnings :=
    if verificationScore = QualityScore.LOW then
      ["No third-party verification - data reliability uncertain"]
    else if verificationScore = QualityScore.MEDIUM
        && strIncludes (strToLower ((emissions.verification_status).getD "")) "limited" then
      ["Limited assurance verification - lower scrutiny than reasonable assurance"]
    else []
  let scope1MethodologyScore := assessS12MethodologyQuality emissions.scope1_methodology
  let scope3Warnings := (List.finRange 15).flatMap (categoryWarnings emissions)
  { nz_id := emissions.nz_id
    year := emissions.year
    boundaryScore := boundaryAssessment.score
    boundaryType := emissions.organizational_boundary
    boundaryIsStandard := boundaryAssessment.isStandard
    verificationScore := verificationScore
    verificationType := emissions.verification_status
    scope1MethodologyScore := scope1MethodologyScore
    scope2LBMethodologyScore := assessS12MethodologyQuality emissions.scope2_lb_methodology
    scope2MBMethodologyScore := assessS12MethodologyQuality emissions.scope2_mb_methodology
    scope3MethodQuality := fun cat =>
      { method := emissions.scope3_cat_method cat
        methodTier := getScope3MethodTier (emissions.scope3_cat_method cat)
        relevancy := emissions.scope3_cat_relevancy cat
        value := emissions.scope3_cat cat }
    overallScore := calculateOverallScore boundaryAssessment.score verificationScore
      scope1MethodologyScore
    warnings := boundaryWarnings ++ verificationWarnings ++ scope3Warnings
    methodologyConsistent := true
    methodologyChanges := [] }

-- ==================== claim-side definitions and fixtures ====================

/-- The overall-score aggregation exactly as the specification words it: map
high, medium, low to 3, 2, 1, average the three components, high at average
2.5 and above, medium at 1.5 and above, low otherwise. Stated separately from
calculateOverallScore so the two can be compared. -/
def specQualityPoints : QualityScore → ℚ
  | QualityScore.HIGH => 3
  | QualityScore.MEDIUM => 2
  | QualityScore.LOW => 1

/-- The specification-side overall score (see specQualityPoints). -/
def specOverallScore (b v m : QualityScore) : QualityScore :=
  if (specQualityPoints b + specQualityPoints v + specQualityPoints m) / 3 ≥ 5 / 2 then
    QualityScore.HIGH
  else if (specQualityPoints b + specQualityPoints v + specQualityPoints m) / 3 ≥ 3 / 2 then
    QualityScore.MEDIUM
  else QualityScore.LOW

/-- The quartile chain invariant of a statistics record. -/
def statsOrdered (s : PeerGroupStats) : Prop :=
  s.min ≤ s.percentile25 ∧ s.percentile25 ≤ s.median
    ∧ s.median ≤ s.percentile75 ∧ s.percentile75 ≤ s.max

/-- Fixture: an emissions record reporting only location-based Scope 2. -/
def emissionsLB : EmissionsData :=
  { company_id := 1
    year := 2023
    scope1_emissions := some 100
    scope1_methodology := some "GHG Protocol"
    scope2_location_based := some 50
    scope2_market_based := none
    scope2_lb_methodology := some "GHG Protocol Scope 2 Guidance"
    scope2_mb_methodology := none
    scope3_total := none
    organizational_boundary := some "Operational control"
    verification_status := some "Limited assurance" }

/-- Fixture: an emissions record reporting only market-based Scope 2, for a
different year and boundary than emissionsLB. -/
def emissionsMB : EmissionsData :=
  { company_id := 2
    year := 2022
    scope1_emissions := some 80
    scope1_methodology := some "GHG Protocol"
    scope2_location_based := none
    scope2_market_based := some 40
    scope2_lb_methodology := none
    scope2_mb_methodology := some "GHG Protocol Scope 2 Guidance"
    scope3_total := none
    organizational_boundary := some "Financial control"
    verification_status := none }

/-- Fixture: the empty store. -/
def emptyDb : Database :=
  { companies := [], emissions := [] }

/-- Fixture: an Energy-sector company row. -/
def mkEnergyCompany (id : ℕ) (name : String) : CompanyRow :=
  { nz_id := id
    company_name := name
    jurisdiction := some "United States of America"
    sics_sector := some "Energy"
    sics_sub_sector := none
    sics_industry := none
    lei := none
    latest_reported_year := some 2023 }

/-- Fixture: an emissions row with every nullable column NULL. -/
def baseEmissionsRow : EmissionsRow :=
  { id := 0
    nz_id := 0
    year := 2023
    scope1 := none
    scope1_methodology := none
    scope2_lb := none
    scope2_mb := none
    scope2_lb_methodology := none
    scope2_mb_methodology := none
    scope3_total := none
    scope3_cat := fun _ => none
    scope3_cat_method := fun _ => none
    scope3_cat_relevancy := fun _ => none
    organizational_boundary := none
    verification_status := none }

/-- Fixture: five Energy-sector companies with 2023 Scope 1 values 30, 10,
100, 40, 20 (deliberately unsorted). -/
def db5 : Database :=
  { companies := [mkEnergyCompany 1 "A", mkEnergyCompany 2 "B", mkEnergyCompany 3 "C",
      mkEnergyCompany 4 "D", mkEnergyCompany 5 "E"]
    emissions :=
      [{ baseEmissionsRow with id := 1, nz_id := 1, scope1 := some 30 },
       { baseEmissionsRow with id := 2, nz_id := 2, scope1 := some 10 },
       { baseEmissionsRow with id := 3, nz_id := 3, scope1 := some 100 },
       { baseEmissionsRow with id := 4, nz_id := 4, scope1 := some 40 },
       { baseEmissionsRow with id := 5, nz_id := 5, scope1 := some 20 }] }

/-- Fixture: the sector cohort filter for db5, in lower case to exercise the
case-insensitive SQL comparison. -/
def energy2023Filters : PeerFilters :=
  { jurisdiction := none, sics_sector := some "energy", year := some 2023 }

/-- Fixture: a store holding only company 1, with no emissions rows. -/
def db1 : Database :=
  { companies := [mkEnergyCompany 1 "A"], emissions := [] }

/-- Fixture: an emissions row with standard boundary, limited assurance, GHG
Protocol Scope 1 methodology, and a location-based Scope 2 methodology. -/
def rowQualityA : EmissionsRow :=
  { baseEmissionsRow with
      nz_id := 1
      organizational_boundary := some "Operational control"
      verification_status := some "Limited assurance"
      scope1_methodology := some "GHG Protocol"
      scope2_lb_methodology := some "GHG Protocol Scope 2 Guidance" }

/-- Fixture: the same boundary, verification and Scope 1 methodology as
rowQualityA, but different Scope 2 methodologies and a modeled Scope 3
category 1 method. -/
def rowQualityB : EmissionsRow :=
  { baseEmissionsRow with
      nz_id := 2
      organizational_boundary := some "Operational control"
      verification_status := some "Limited assurance"
      scope1_methodology := some "GHG Protocol"
      scope2_mb_methodology := some "Market-based supplier factors"
      scope3_cat := fun i => if i = (0 : Fin 15) then some 5000 else none
      scope3_cat_method := fun i => if i = (0 : Fin 15) then some "Spend-based method" else none }

/-- Fixture: the ascending sample used by the concrete percentile scenarios. -/
def sample5 : List ℚ :=
  [10, 20, 30, 40, 100]

/-- Fixture: two trend data points exactly one year apart with a positive
first mean. -/
def trendPoints1yr : List PeerTrendDataPoint :=
  [{ year := 2022, mean := 100 }, { year := 2023, mean := 110 }]

/-- Fixture: three trend data points spanning four years, doubling from 100
to 200. -/
def trendPoints3 : List PeerTrendDataPoint :=
  [{ year := 2019, mean := 100 }, { year := 2021, mean := 150 },
   { year := 2023, mean := 200 }]

-- ==================== helper lemmas ====================

/-- Monotone access into a sorted rational list through getD. -/
theorem sorted_getD_le (l : List ℚ) (h : l.Sorted (· ≤ ·)) {i j : ℕ}
    (hij : i ≤ j) (hj : j < l.length) : l.getD i 0 ≤ l.getD j 0 := by
  have hi : i < l.length := lt_of_le_of_lt hij hj
  rw [List.getD_eq_getElem l 0 hi, List.getD_eq_getElem l 0 hj]
  rcases lt_or_eq_of_le hij with hlt | rfl
  · exact List.pairwise_iff_getElem.mp h i j hi hj hlt
  · exact le_refl _

/-- The statistics record computed from a sorted non-empty sample exists and
satisfies the quartile chain. -/
theorem peerStatsOfValues_ordered (nums : List ℚ) (hs : nums.Sorted (· ≤ ·))
    (hne : nums ≠ []) :
    ∃ s, peerStatsOfValues nums = some s ∧ statsOrdered s := by
  have hlen : 0 < nums.length := List.length_pos.mpr hne
  rw [peerStatsOfValues, if_neg hne]
  refine ⟨_, rfl, ?_, ?_, ?_, ?_⟩
  · -- min ≤ percentile25
    exact sorted_getD_le nums hs (Nat.zero_le _) (by omega)
  · -- percentile25 ≤ median
    by_cases hpar : nums.length % 2 = 0
    · have h1 : nums.getD (nums.length / 4) 0 ≤ nums.getD (nums.length / 2 - 1) 0 :=
        sorted_getD_le nums hs (by omega) (by omega)
      have h2 : nums.getD (nums.length / 2 - 1) 0 ≤ nums.getD (nums.length / 2) 0 :=
        sorted_getD_le nums hs (by omega) (by omega)
      simp only [hpar, if_pos]
      linarith
    · have h1 : nums.getD (nums.length / 4) 0 ≤ nums.getD (nums.length / 2) 0 :=
        sorted_getD_le nums hs (by omega) (by omega)
      simp only [hpar, if_neg, if_false]
      simpa using h1
  · -- median ≤ percentile75
    by_cases hpar : nums.length % 2 = 0
    · have h1 : nums.getD (nums.length / 2 - 1) 0 ≤ nums.getD (nums.length / 2) 0 :=
        sorted_getD_le nums hs (by omega) (by omega)
      have h2 : nums.getD (nums.length / 2) 0 ≤ nums.getD (3 * nums.length / 4) 0 :=
        sorted_getD_le nums hs (by omega) (by omega)
      simp only [hpar, if_pos]
      linarith
    · have h1 : nums.getD (nums.length / 2) 0 ≤ nums.getD (3 * nums.length / 4) 0 :=
        sorted_getD_le nums hs (by omega) (by omega)
      simp only [hpar, if_neg, if_false]
      simpa using h1
  · -- percentile75 ≤ max
    exact sorted_getD_le nums hs (by omega) (by omega)

/-- The value list a peer query returns is sorted ascending. -/
theorem peerQueryValues_sorted (db : Database) (scope : BenchScope)
    (filters : PeerFilters) : (peerQueryValues db scope filters).Sorted (· ≤ ·) := by
  rw [peerQueryValues]
  exact List.sorted_insertionSort _ _

-- ==================== claim C4 ====================

/-- Claim C4: the overall quality score maps the boundary, verification and
methodology component scores through high 3, medium 2, low 1, averages the
three, and returns high at average at least 2.5, medium at least 1.5, low
otherwise; in particular boundary high, verification low, methodology medium
averages 2.0 and yields medium. -/
theorem overallScore_matches_spec :
    (∀ b v m : QualityScore, calculateOverallScore b v m = specOverallScore b v m)
    ∧ calculateOverallScore QualityScore.HIGH QualityScore.LOW QualityScore.MEDIUM
        = QualityScore.MEDIUM := by
  constructor
  · intro b v m
    cases b <;> cases v <;> cases m <;>
      norm_num [calculateOverallScore, specOverallScore, specQualityPoints]
  · norm_num [calculateOverallScore]

-- ==================== claim C10 ====================

/-- Claim C10: when the end-period value is zero or absent, calculateCAGR
returns null even for a strictly positive begin value and more than one year
apart; a collapse of the metric to zero is reported as null, never as a
computed -100 percent. -/
theorem cagr_null_on_zero_or_missing_end (b : ℚ) (y : ℤ) (hb : 0 < b) (hy : 1 < y) :
    calculateCAGR (some b) (some 0) y = none ∧ calculateCAGR (some b) none y = none := by
  constructor
  · simp [calculateCAGR]
  · rfl

/-- Witness for claim C10 at begin value 100 and four years apart. -/
theorem cagr_null_on_zero_or_missing_end_witness :
    calculateCAGR (some 100) (some 0) 4 = none ∧ calculateCAGR (some 100) none 4 = none :=
  cagr_null_on_zero_or_missing_end 100 4 (by norm_num) (by norm_num)

-- ==================== claim C5 ====================

/-- Counterexample for claim C5, refuting it at one concrete input per cited
implementation. First, at begin value 100, end value 0 and four years apart,
both stated conditions of the claim hold (yearsApart exceeds one and the
first value is positive), yet calculateCAGR returns null rather than the
value of the stated formula. Second, on two trend points exactly one year
apart (2022 and 2023, means 100 and 110), yearsApart is not greater than one,
so the claim requires a null CAGR, yet analyzeTrend computes a non-null
compound growth rate, because its gate is yearsApart > 0 rather than > 1. -/
theorem cagr_counterexample :
    ((0 : ℚ) < 100 ∧ (1 : ℤ) < 4 ∧ calculateCAGR (some 100) (some 0) 4 = none)
    ∧ (¬ 1 < (2023 : ℤ) - 2022
      ∧ (analyzeTrend trendPoints1yr).averageAnnualGrowthRate ≠ none) := by
  refine ⟨⟨by norm_num, by norm_num, ?_⟩, by norm_num, ?_⟩
  · simp [calculateCAGR]
  · rw [analyzeTrend, if_neg (by norm_num [trendPoints1yr])]
    simp only [trendPoints1yr]
    norm_num [List.getD]
    exact Option.some_ne_none _

/-- Claim C5 as amended, covering both cited implementations. The
year-comparison calculateCAGR returns the percentage form of
((last / first) ^ (1 / yearsApart)) - 1 exactly when yearsApart exceeds one,
the first value is positive, and the last value is present and non-zero; in
every other case (including an absent input) it returns null. The peer-trend
analyzeTrend computes its compound growth rate under the weaker gate
yearsApart > 0 with a positive first mean — so already at a one-year span,
and without any guard on the last mean — and returns null only below two
data points or when that gate fails. -/
theorem cagr_characterization (b e : ℚ) (y : ℤ)
    (dataPoints : List PeerTrendDataPoint) :
    (0 < b → e ≠ 0 → 1 < y →
      calculateCAGR (some b) (some e) y
        = some ((Real.rpow ((e : ℝ) / (b : ℝ)) (1 / (y : ℝ)) - 1) * 100))
    ∧ (calculateCAGR (some b) (some e) y = none ↔ b ≤ 0 ∨ e = 0 ∨ y ≤ 1)
    ∧ calculateCAGR none (some e) y = none
    ∧ calculateCAGR (some b) none y = none
    ∧ calculateCAGR none none y = none
    ∧ (2 ≤ dataPoints.length →
        (analyzeTrend dataPoints).averageAnnualGrowthRate
          = if 0 < (dataPoints.getD (dataPoints.length - 1) { year := 0, mean := 0 }).year
                - (dataPoints.getD 0 { year := 0, mean := 0 }).year
              ∧ 0 < (dataPoints.getD 0 { year := 0, mean := 0 }).mean
            then some ((Real.rpow
                (((dataPoints.getD (dataPoints.length - 1) { year := 0, mean := 0 }).mean : ℝ)
                  / ((dataPoints.getD 0 { year := 0, mean := 0 }).mean : ℝ))
                (1 / (((dataPoints.getD (dataPoints.length - 1) { year := 0, mean := 0 }).year
                  - (dataPoints.getD 0 { year := 0, mean := 0 }).year : ℤ) : ℝ)) - 1) * 100)
            else none)
    ∧ (dataPoints.length < 2 → (analyzeTrend dataPoints).averageAnnualGrowthRate = none) := by
  refine ⟨?_, ?_, rfl, rfl, rfl, ?_, ?_⟩
  · intro hb he hy
    rw [calculateCAGR, if_neg]
    push_neg
    exact ⟨hb.ne', he, hb, hy⟩
  · rw [calculateCAGR]
    split_ifs with h
    · simp only [true_iff]
      rcases h with h | h | h | h
      · exact Or.inl (le_of_eq h)
      · exact Or.inr (Or.inl h)
      · exact Or.inl h
      · exact Or.inr (Or.inr h)
    · push_neg at h
      simp only [false_iff]
      push_neg
      exact ⟨h.2.2.1, h.2.1, h.2.2.2⟩
  · intro h
    rw [analyzeTrend, if_neg (by omega)]
  · intro h
    rw [analyzeTrend, if_pos h]

-- ==================== claim C3 ====================

/-- Counterexample for claim C3: for a cohort filter matching no values (the
empty store), the db cohort statistics computation getPeerStatistics does not
return a zero-sentinel record at all; it returns null. -/
theorem emptyCohort_counterexample :
    ¬ ∃ s : PeerGroupStats,
      getPeerStatistics emptyDb BenchScope.scope1
        { jurisdiction := none, sics_sector := none, year := none } = some s := by
  rintro ⟨s, hs⟩
  rw [show getPeerStatistics emptyDb BenchScope.scope1
      { jurisdiction := none, sics_sector := none, year := none } = none from rfl] at hs
  exact Option.noConfusion hs

/-- Claim C3 as amended: for the empty sample the db-side getPeerStatistics
returns an explicit null sentinel (raising nothing), while the tools-side
calculatePeerStats is the function returning the zero-sentinel record with
count 0 and every other field 0. -/
theorem emptyCohort_sentinels :
    (∀ (db : Database) (scope : BenchScope) (filters : PeerFilters),
      peerQueryValues db scope filters = [] → getPeerStatistics db scope filters = none)
    ∧ calculatePeerStats [] = zeroPeerGroupStats
    ∧ (calculatePeerStats []).count = 0 := by
  refine ⟨?_, rfl, rfl⟩
  intro db scope filters h
  rw [getPeerStatistics, h, peerStatsOfValues, if_pos rfl]

/-- Witness for claim C3 at the empty store, where the query returns no
values. -/
theorem emptyCohort_sentinels_witness :
    getPeerStatistics emptyDb BenchScope.scope1
      { jurisdiction := none, sics_sector := none, year := none } = none :=
  emptyCohort_sentinels.1 emptyDb BenchScope.scope1
    { jurisdiction := none, sics_sector := none, year := none } rfl

-- ==================== claim C1 ====================

/-- Claim C1: comparing the two exclusive Scope 2 variants always blocks. If
the two methodologies differ, checkScope2Comparability reports isComparable
false with an error-severity scope2_mismatch warning; and for any two
emissions records where one reports only the location-based variant and the
other only the market-based variant, checkEmissionsComparability reports
isComparable false with an error-severity scope2_mismatch warning, whatever
the years and organizational boundaries are. -/
theorem scope2_mismatch_blocks (m1 m2 : Scope2Methodology) (hm : m1 ≠ m2)
    (e1 e2 : EmissionsData)
    (h1 : e1.scope2_location_based.isSome) (h2 : e1.scope2_market_based = none)
    (h3 : e2.scope2_market_based.isSome) (h4 : e2.scope2_location_based = none) :
    ((checkScope2Comparability m1 m2).isComparable = false
      ∧ ∃ w ∈ (checkScope2Comparability m1 m2).warnings,
          w.type = WarningType.scope2_mismatch ∧ w.severity = Severity.error)
    ∧ ((checkEmissionsComparability e1 e2).isComparable = false
      ∧ ∃ w ∈ (checkEmissionsComparability e1 e2).warnings,
          w.type = WarningType.scope2_mismatch ∧ w.severity = Severity.error) := by
  have hmix : mixedComparison e1 e2 = true := by
    rw [mixedComparison, h1, h3, h4]
    simp
  constructor
  · rw [checkScope2Comparability, if_neg hm]
    exact ⟨rfl, ⟨_, List.mem_singleton.mpr rfl, rfl, rfl⟩⟩
  · constructor
    · show (!mixedComparison e1 e2) = false
      rw [hmix]
      rfl
    · have hw : scope2RuleWarnings e1 e2 ≠ [] := by
        rw [scope2RuleWarnings, if_pos hmix]
        exact List.cons_ne_nil _ _
      obtain ⟨w, hwmem⟩ := List.exists_mem_of_ne_nil _ hw
      have hwprop : w.type = WarningType.scope2_mismatch ∧ w.severity = Severity.error := by
        rw [scope2RuleWarnings, if_pos hmix] at hwmem
        rcases List.mem_singleton.mp hwmem with rfl
        exact ⟨rfl, rfl⟩
      refine ⟨w, ?_, hwprop⟩
      show w ∈ yearRuleWarnings e1 e2 ++ boundaryRuleWarnings e1 e2
        ++ scope1RuleWarnings e1 e2 ++ scope2RuleWarnings e1 e2
      simp only [List.mem_append]
      exact Or.inr hwmem

/-- Witness for claim C1: location-based versus market-based methodologies,
and the two fixture records that report opposite Scope 2 variants in
different years with different boundaries. -/
theorem scope2_mismatch_blocks_witness :
    ((checkScope2Comparability Scope2Methodology.location_based
        Scope2Methodology.market_based).isComparable = false
      ∧ ∃ w ∈ (checkScope2Comparability Scope2Methodology.location_based
            Scope2Methodology.market_based).warnings,
          w.type = WarningType.scope2_mismatch ∧ w.severity = Severity.error)
    ∧ ((checkEmissionsComparability emissionsLB emissionsMB).isComparable = false
      ∧ ∃ w ∈ (checkEmissionsComparability emissionsLB emissionsMB).warnings,
          w.type = WarningType.scope2_mismatch ∧ w.severity = Severity.error) :=
  scope2_mismatch_blocks Scope2Methodology.location_based Scope2Methodology.market_based
    (by decide) emissionsLB emissionsMB (by decide) (by decide) (by decide) (by decide)

-- ==================== claim C9 ====================

/-- Claim C9: the overall quality score of assessDataQuality depends only on
the organizational boundary, the verification status and the Scope 1
methodology; two emissions rows agreeing on those three fields receive the
same overallScore whatever their Scope 2 methodologies or per-category
Scope 3 methods are. -/
theorem overallScore_depends_only_on_three_fields (r1 r2 : EmissionsRow)
    (hb : r1.organizational_boundary = r2.organizational_boundary)
    (hv : r1.verification_status = r2.verification_status)
    (hm : r1.scope1_methodology = r2.scope1_methodology) :
    (assessDataQuality r1).overallScore = (assessDataQuality r2).overallScore := by
  show calculateOverallScore (assessBoundaryQuality r1.organizational_boundary).score
      (assessVerificationQuality r1.verification_status)
      (assessS12MethodologyQuality r1.scope1_methodology)
    = calculateOverallScore (assessBoundaryQuality r2.organizational_boundary).score
      (assessVerificationQuality r2.verification_status)
      (assessS12MethodologyQuality r2.scope1_methodology)
  rw [hb, hv, hm]

/-- Witness for claim C9: two fixture rows agreeing on boundary, verification
and Scope 1 methodology but differing in Scope 2 methodologies and in the
Scope 3 category 1 method still get the same overall score. -/
theorem overallScore_depends_only_on_three_fields_witness :
    rowQualityA.organizational_boundary = rowQualityB.organizational_boundary
    ∧ rowQualityA.verification_status = rowQualityB.verification_status
    ∧ rowQualityA.scope1_methodology = rowQualityB.scope1_methodology
    ∧ rowQualityA.scope2_lb_methodology ≠ rowQualityB.scope2_lb_methodology
    ∧ rowQualityA.scope3_cat_method 0 ≠ rowQualityB.scope3_cat_method 0
    ∧ (assessDataQuality rowQualityA).overallScore
        = (assessDataQuality rowQualityB).overallScore :=
  ⟨rfl, rfl, rfl, by decide, by decide,
    overallScore_depends_only_on_three_fields rowQualityA rowQualityB rfl rfl rfl⟩

-- ==================== claim C8 ====================

/-- Counterexample for claim C8: company 99 does not exist in the fixture
store, yet compare mode returns a result list that simply omits it — the
entry list for the request [1, 99] names only company 1, with no error for
the missing company — so the missing entity is silently dropped rather than
surfaced as a lookup failure. -/
theorem compare_drops_unknown_counterexample :
    getCompanyById db1 99 = none
    ∧ (compareCompanies db1 [1, 99] none).map (fun r => r.company.nz_id) = [1] := by
  constructor
  · rfl
  · rfl

/-- Claim C8 as amended: in single mode an unknown entity id is surfaced as a
distinct lookup failure (benchmarkCompany returns null exactly when the id is
unknown, and the protocol shell turns that null into an explicit error), but
in compare mode unknown ids are silently skipped: the result holds exactly
the requested ids that exist, in order, and the missing ones are neither
reported nor zero-filled. -/
theorem not_found_surfacing (db : Database) :
    (∀ (nzId : ℕ) (scope : BenchScope) (year : Option ℤ),
      benchmarkCompany db nzId scope year = none ↔ getCompanyById db nzId = none)
    ∧ (∀ (nzIds : List ℕ) (year : Option ℤ),
      (compareCompanies db nzIds year).map (fun r => r.company.nz_id)
        = nzIds.filter (fun id => (getCompanyById db id).isSome)) := by
  constructor
  · intro nzId scope year
    cases h : getCompanyById db nzId with
    | none => simp [benchmarkCompany, h]
    | some c => simp [benchmarkCompany, h]
  · intro nzIds year
    induction nzIds with
    | nil => rfl
    | cons head tail ih =>
      cases h : getCompanyById db head with
      | none =>
        rw [compareCompanies]
        simp only [h, List.filter_cons]
        simpa [h] using ih
      | some c =>
        have hc : c.nz_id = head := by
          have h2 : db.companies.find? (fun x => decide (x.nz_id = head)) = some c := h
          simpa using List.find?_some h2
        rw [compareCompanies]
        simp only [h, List.map_cons, List.filter_cons, Option.isSome_some]
        simp only [hc, ih]
        rfl

/-- Witness for claim C8: in the fixture store, benchmarking unknown company
99 yields the null lookup failure, while compare mode for [1, 99] silently
keeps only company 1. -/
theorem not_found_surfacing_witness :
    benchmarkCompany db1 99 BenchScope.scope1 none = none
    ∧ (compareCompanies db1 [1, 99] none).map (fun r => r.company.nz_id)
        = ([1, 99].filter (fun id => (getCompanyById db1 id).isSome)) :=
  ⟨((not_found_surfacing db1).1 99 BenchScope.scope1 none).mpr rfl,
    (not_found_surfacing db1).2 [1, 99] none⟩

-- ==================== claim C6 ====================

/-- Claim C6: whenever a peer cohort query returns a non-empty sample, the
statistics computed from it satisfy min ≤ percentile25 ≤ median ≤
percentile75 ≤ max. -/
theorem peer_statistics_quartile_chain (db : Database) (scope : BenchScope)
    (filters : PeerFilters) (h : peerQueryValues db scope filters ≠ []) :
    ∃ s, getPeerStatistics db scope filters = some s ∧ statsOrdered s := by
  rw [getPeerStatistics]
  exact peerStatsOfValues_ordered _ (peerQueryValues_sorted db scope filters) h

/-- Witness for claim C6 on the five-company fixture store, whose 2023 Energy
cohort query returns the non-empty sample 10, 20, 30, 40, 100. -/
theorem peer_statistics_quartile_chain_witness :
    peerQueryValues db5 BenchScope.scope1 energy2023Filters = [10, 20, 30, 40, 100]
    ∧ ∃ s, getPeerStatistics db5 BenchScope.scope1 energy2023Filters = some s
        ∧ statsOrdered s :=
  ⟨by decide, peer_statistics_quartile_chain db5 BenchScope.scope1 energy2023Filters
    (by decide)⟩

-- ==================== claim C2 ====================

/-- Counterexample for claim C2: on the sample 10, 20, 30, 40, 100 the db
benchmark percentile (calcPercentile over the cohort statistics) gives 22 for
the value 30 — the rounded linear interpolation between min and max — while
the mid-rank formula (countBelow + 0.5 countEqual) / n * 100 gives 50, so the
percentile produced by benchmarkCompany does not satisfy the claimed
formula. -/
theorem percentileRank_counterexample :
    calcPercentile (some 30) (peerStatsOfValues sample5) = some 22
    ∧ ((sample5.countP (fun v => v < 30) : ℚ)
        + (1 / 2 : ℚ) * (sample5.countP (fun v => v = 30) : ℚ))
        / (sample5.length : ℚ) * 100 = 50
    ∧ (22 : ℚ) ≠ 50 := by
  have hstats : peerStatsOfValues sample5 = some
      { count := 5
        mean := 40
        median := 30
        stdDev := Real.sqrt ((1000 : ℚ) : ℝ)
        min := 10
        max := 100
        percentile25 := 20
        percentile75 := 40 } := by
    rw [peerStatsOfValues, if_neg (by decide)]
    simp only [PeerGroupStats.mk.injEq, Option.some.injEq, sample5]
    norm_num [List.getD]
  refine ⟨?_, by norm_num [sample5, List.countP_cons, List.countP_nil], by norm_num⟩
  rw [hstats]
  simp only [calcPercentile]
  norm_num [round_eq]

/-- Claim C2 as amended: the mid-rank formula holds for the benchmarking
module rank function calculatePercentileRank — for every non-empty sample and
every queried value it returns exactly (countBelow + 0.5 countEqual) / n *
100 — while the db benchmark percentile calcPercentile instead reports the
rounded linear interpolation between the cohort min and max (see the
counterexample). -/
theorem percentileRank_midrank (value : ℚ) (values : List ℚ) (h : values ≠ []) :
    calculatePercentileRank value values
      = ((values.countP (fun v => v < value) : ℚ)
          + (1 / 2 : ℚ) * (values.countP (fun v => v = value) : ℚ))
        / (values.length : ℚ) * 100 := by
  rw [calculatePercentileRank, if_neg h]
  simp only [← List.countP_eq_length_filter]
  have hperm := List.perm_insertionSort (fun a b : ℚ => a ≤ b) values
  rw [hperm.countP_eq, hperm.countP_eq, hperm.length_eq]

/-- Witness for claim C2 at value 30 over the sample 10, 20, 30, 40, 100,
where the mid-rank formula gives 50. -/
theorem percentileRank_midrank_witness :
    calculatePercentileRank 30 sample5
      = ((sample5.countP (fun v => v < 30) : ℚ)
          + (1 / 2 : ℚ) * (sample5.countP (fun v => v = 30) : ℚ))
        / (sample5.length : ℚ) * 100 :=
  percentileRank_midrank 30 sample5 (by decide)

-- ==================== claim C7 ====================

/-- Counterexample for claim C7: requesting a generic scope2 comparison for
companies 1 and 2 when only company 1 has data makes validateComparisonRequest
return early with the single missing-data warning — the scope-2 advisory rule,
although applicable (it fires for the same scope once the data is complete),
is suppressed because the missing-data rule fired. -/
theorem rule_suppression_counterexample :
    ((validateComparisonRequest [1, 2] CompareScope.scope2 [(1, emissionsLB)]).warnings.map
        (fun w => w.type) = [WarningType.data_quality])
    ∧ (∃ w ∈ (validateComparisonRequest [1] CompareScope.scope2 [(1, emissionsLB)]).warnings,
        w.type = WarningType.scope2_mismatch) := by
  constructor
  · rfl
  · decide

/-- Claim C7 as amended: checkEmissionsComparability runs its four rules
independently — each warning type appears in the output exactly when its own
rule condition holds, irrespective of the other rules, and only the mixed
Scope 2 rule clears isComparable — whereas validateComparisonRequest returns
early when data is missing for a requested company: its output then carries
only the missing-data warning and the Scope 2 rules are suppressed. (Inputs
are values in this embedding; no function mutates its arguments.) -/
theorem comparability_rules_independent :
    (∀ e1 e2 : EmissionsData,
      ((∃ w ∈ (checkEmissionsComparability e1 e2).warnings,
          w.type = WarningType.year_mismatch) ↔ e1.year ≠ e2.year)
      ∧ ((∃ w ∈ (checkEmissionsComparability e1 e2).warnings,
          w.type = WarningType.boundary_mismatch) ↔
            (e1.organizational_boundary ≠ e2.organizational_boundary
              ∧ truthyStr e1.organizational_boundary = true
              ∧ truthyStr e2.organizational_boundary = true))
      ∧ ((∃ w ∈ (checkEmissionsComparability e1 e2).warnings,
          w.type = WarningType.methodology_mismatch) ↔
            (truthyStr e1.scope1_methodology = true
              ∧ truthyStr e2.scope1_methodology = true
              ∧ e1.scope1_methodology ≠ e2.scope1_methodology))
      ∧ ((∃ w ∈ (checkEmissionsComparability e1 e2).warnings,
          w.type = WarningType.scope2_mismatch) ↔ mixedComparison e1 e2 = true)
      ∧ ((checkEmissionsComparability e1 e2).isComparable = false
          ↔ mixedComparison e1 e2 = true))
    ∧ (∀ (companyIds : List ℕ) (scope : CompareScope)
        (emissionsData : List (ℕ × EmissionsData)),
      companyIds.filter (fun id => !(emissionsData.any (fun p => p.1 = id))) ≠ [] →
      (validateComparisonRequest companyIds scope emissionsData).warnings.map
          (fun w => w.type) = [WarningType.data_quality]) := by
  constructor
  · intro e1 e2
    have hw : (checkEmissionsComparability e1 e2).warnings
        = yearRuleWarnings e1 e2 ++ boundaryRuleWarnings e1 e2
          ++ scope1RuleWarnings e1 e2 ++ scope2RuleWarnings e1 e2 := rfl
    have hc : (checkEmissionsComparability e1 e2).isComparable
        = !mixedComparison e1 e2 := rfl
    rw [hw, hc]
    rw [yearRuleWarnings, boundaryRuleWarnings, scope1RuleWarnings, scope2RuleWarnings]
    split_ifs <;>
      simp_all [List.mem_append, Bool.and_eq_true]
  · intro companyIds scope emissionsData h
    unfold validateComparisonRequest
    rw [if_pos h]
    rfl

/-- Witness for claim C7: on the two fixture records that mix the Scope 2
variants, the Scope 2 rule fires exactly as its own condition says. -/
theorem comparability_rules_independent_witness :
    ∃ w ∈ (checkEmissionsComparability emissionsLB emissionsMB).warnings,
      w.type = WarningType.scope2_mismatch :=
  ((comparability_rules_independent.1 emissionsLB emissionsMB).2.2.2.1).mpr (by decide)

/-- Witness for claim C5 at first value 100, last value 200 and four years
apart — the concrete scenario of the specification (about 18.92 percent) —
and, for the peer-trend side, at three data points spanning four years, where
the growth rate is computed. -/
theorem cagr_characterization_witness :
    calculateCAGR (some 100) (some 200) 4
      = some ((Real.rpow (((200 : ℚ) : ℝ) / ((100 : ℚ) : ℝ)) (1 / ((4 : ℤ) : ℝ)) - 1)
          * 100)
    ∧ (analyzeTrend trendPoints3).averageAnnualGrowthRate ≠ none := by
  constructor
  · exact (cagr_characterization 100 200 4 trendPoints3).1
      (by norm_num) (by norm_num) (by norm_num)
  · have h := (cagr_characterization 100 200 4 trendPoints3).2.2.2.2.2.1
      (by norm_num [trendPoints3])
    rw [h, if_pos]
    · exact Option.some_ne_none _
    · constructor <;> norm_num [trendPoints3, List.getD]
